import Mathlib

/-!
Verification development for a small collection of FastAPI exercise apps:

* `exercise_1`  — root greeting, external-API proxy for products (pydantic
  `ProductSchema` with nested `RatingSchema`), a seeded module-level
  `productList` that no endpoint touches.
* `exercise_2`  — product creation endpoints backed by a PostgreSQL table
  with a single JSONB column (`products_raw.product`): `POST /products`,
  `POST /products/bulk`, `GET /products`.
* `lektion_2` / `lektion_3` — `UserSchema` / `UserSchemaResponse`, an
  in-memory `userList` seeded with three users, `GET /`, `GET /items/{id}`,
  `GET /users`, `POST /users`.

JSON values are modelled by an inductive `Json`; numbers are rationals
(no arithmetic is performed on them anywhere in the code, so an exact
representation is faithful).  Pydantic validation is per-field type
checking (the schemas declare no custom validators), modelled by the
`dec*` decoders; `model_dump` / response serialization is modelled by the
`enc*` / `dump*` functions.  HTTP handlers become pure functions from the
request data and the relevant state to a `Response` and the new state.
-/

/-- A JSON value.  Objects are association lists in key order; a Python
dict has unique keys, and lookup-based statements read the first match. -/
inductive Json where
  | null : Json
  | bool : Bool → Json
  | num : Rat → Json
  | str : String → Json
  | arr : List Json → Json
  | obj : List (String × Json) → Json


/-- First-match lookup in a JSON object, as a Python dict read. -/
def lookupStr (k : String) : List (String × Json) → Option Json
  | [] => none
  | (k', v) :: rest => if k' = k then some v else lookupStr k rest

/-! ### Pydantic per-field validation and serialization primitives -/

/-- pydantic `str` field: accepts exactly a JSON string. -/
def decStr : Option Json → Option String
  | some (Json.str s) => some s
  | _ => none

/-- pydantic `float` field: accepts any JSON number. -/
def decFloat : Option Json → Option Rat
  | some (Json.num r) => some r
  | _ => none

/-- pydantic `int` field: a JSON number with no fractional part. -/
def decInt : Option Json → Option Int
  | some (Json.num r) => if r.den = 1 then some r.num else none
  | _ => none

/-- pydantic lax `bool` field: a JSON bool, the numbers 0/1, or a
recognized boolean string (case-insensitive). -/
def decBool : Option Json → Option Bool
  | some (Json.bool b) => some b
  | some (Json.num r) =>
    if r = 0 then some false else if r = 1 then some true else none
  | some (Json.str s) =>
    let t := s.toLower
    if t ∈ ["true", "t", "yes", "y", "on", "1"] then some true
    else if t ∈ ["false", "f", "no", "n", "off", "0"] then some false
    else none
  | _ => none

/-- `Union[str, None] = None` field: absent or null means `None`;
otherwise a string is required. -/
def decOptStr : Option Json → Option (Option String)
  | none => some none
  | some Json.null => some none
  | some (Json.str s) => some (some s)
  | _ => none

/-- Element-wise validation of a `list[str]` value. -/
def decStrList : List Json → Option (List String)
  | [] => some []
  | Json.str s :: rest => (decStrList rest).map (fun ss => s :: ss)
  | _ => none

/-- `Union[list[str], None] = None` field. -/
def decOptStrList : Option Json → Option (Option (List String))
  | none => some none
  | some Json.null => some none
  | some (Json.arr xs) => (decStrList xs).map some
  | _ => none

/-- Serialization of an optional string field: `model_dump` emits unset
optional fields as `None`, i.e. JSON null. -/
def encOptStr : Option String → Json
  | none => Json.null
  | some s => Json.str s

/-- Serialization of an optional string-list field. -/
def encOptStrList : Option (List String) → Json
  | none => Json.null
  | some ss => Json.arr (ss.map Json.str)

/-- The value holds a JSON string. -/
def isStrVal : Option Json → Bool
  | some (Json.str _) => true
  | _ => false

/-- The value holds a JSON number. -/
def isNumVal : Option Json → Bool
  | some (Json.num _) => true
  | _ => false

/-- The value holds a JSON bool. -/
def isBoolVal : Option Json → Bool
  | some (Json.bool _) => true
  | _ => false

/-- Absent, null, or a string: the correctly-typed shapes of an optional
string field. -/
def isOptStrVal : Option Json → Bool
  | none => true
  | some Json.null => true
  | some (Json.str _) => true
  | _ => false

/-- The JSON value is a string. -/
def isStrJson : Json → Bool
  | Json.str _ => true
  | _ => false

/-- Absent, null, or an array of strings. -/
def isOptStrListVal : Option Json → Bool
  | none => true
  | some Json.null => true
  | some (Json.arr xs) => xs.all isStrJson
  | _ => false

/-- Parse a nonempty run of decimal digits into a natural number. -/
def parseNat (cs : List Char) : Option Nat :=
  if cs = [] then none
  else cs.foldl
    (fun acc c =>
      acc.bind (fun n => if c.isDigit then some (n * 10 + (c.toNat - 48)) else none))
    (some 0)

/-- Decoding of an `int`-typed path parameter from its raw segment:
an optional leading minus sign followed by decimal digits. -/
def parseIntSeg (s : String) : Option Int :=
  match s.data with
  | '-' :: rest => (parseNat rest).map (fun n => -(n : Int))
  | cs => (parseNat cs).map (fun n => (n : Int))

/-- An HTTP response together with whether the route's handler body ran
(validation failures short-circuit before the handler). -/
structure Response where
  status : Nat
  body : Json
  handlerRan : Bool

/-- The framework's 422 response body for a request-validation failure. -/
def validationErrorBody : Json := Json.obj [("detail", Json.arr [])]

/-! ### exercise_2: products over a single-JSONB-column table -/

namespace Ex2

/-- `exercise_2/schema/product.py`: nested object for product dimensions. -/
structure DimensionsSchema where
  width_cm : Rat
  height_cm : Rat
  depth_cm : Rat
deriving DecidableEq

/-- `exercise_2/schema/product.py`: the product schema, with optional
`category`, `brand`, `tags` and nested optional `dimensions`. -/
structure ProductSchema where
  product_id : String
  name : String
  price : Rat
  currency : String
  category : Option String := none
  brand : Option String := none
  tags : Option (List String) := none
  dimensions : Option DimensionsSchema := none
deriving DecidableEq

/-- Validation of a `DimensionsSchema` value: a JSON object whose three
required float fields validate; extra keys are ignored. -/
def validateDimensions : Json → Option DimensionsSchema
  | Json.obj kvs => do
    let w ← decFloat (lookupStr "width_cm" kvs)
    let h ← decFloat (lookupStr "height_cm" kvs)
    let d ← decFloat (lookupStr "depth_cm" kvs)
    some ⟨w, h, d⟩
  | _ => none

/-- `Union[DimensionsSchema, None] = None` field. -/
def decOptDims : Option Json → Option (Option DimensionsSchema)
  | none => some none
  | some Json.null => some none
  | some v => (validateDimensions v).map some

/-- Validation of a request body against `ProductSchema`: each declared
field is read from the payload and type-checked; any failure fails the
whole validation.  Extra keys are ignored (pydantic default). -/
def validateProduct (payload : List (String × Json)) : Option ProductSchema := do
  let product_id ← decStr (lookupStr "product_id" payload)
  let name ← decStr (lookupStr "name" payload)
  let price ← decFloat (lookupStr "price" payload)
  let currency ← decStr (lookupStr "currency" payload)
  let category ← decOptStr (lookupStr "category" payload)
  let brand ← decOptStr (lookupStr "brand" payload)
  let tags ← decOptStrList (lookupStr "tags" payload)
  let dimensions ← decOptDims (lookupStr "dimensions" payload)
  some ⟨product_id, name, price, currency, category, brand, tags, dimensions⟩

/-- Serialization of a `DimensionsSchema` (fields in declaration order). -/
def dumpDimensions (d : DimensionsSchema) : Json :=
  Json.obj [("width_cm", Json.num d.width_cm), ("height_cm", Json.num d.height_cm),
    ("depth_cm", Json.num d.depth_cm)]

/-- Serialization of an optional nested `DimensionsSchema` field. -/
def encOptDims : Option DimensionsSchema → Json
  | none => Json.null
  | some d => dumpDimensions d

/-- `ProductSchema.model_dump()`: all fields in declaration order; unset
optional fields appear with value `None` (JSON null) — pydantic's default
is `exclude_none=False`, `exclude_unset=False`. -/
def dumpProduct (p : ProductSchema) : List (String × Json) :=
  [("product_id", Json.str p.product_id), ("name", Json.str p.name),
   ("price", Json.num p.price), ("currency", Json.str p.currency),
   ("category", encOptStr p.category), ("brand", encOptStr p.brand),
   ("tags", encOptStrList p.tags), ("dimensions", encOptDims p.dimensions)]

/-- A database connection as one request sees it: the committed rows of
`products_raw` (column `product`), rows executed but not yet committed,
and the number of commits performed on this connection. -/
structure Conn where
  committed : List Json
  pending : List Json
  commits : Nat

/-- `insert_product`: `INSERT INTO products_raw (product) VALUES (%s)`
with one serialized product. -/
def insert_product (conn : Conn) (product_data : Json) : Conn :=
  { conn with pending := conn.pending ++ [product_data] }

/-- `cur.executemany`: the same INSERT executed for each parameter row of
the batch, in order. -/
def executemany (conn : Conn) (rows : List Json) : Conn :=
  { conn with pending := conn.pending ++ rows }

/-- `conn.commit()`: pending rows become durable. -/
def Conn.commit (conn : Conn) : Conn :=
  ⟨conn.committed ++ conn.pending, [], conn.commits + 1⟩

/-- `pool.connection()`: a fresh connection over the current table. -/
def poolConnection (db : List Json) : Conn := ⟨db, [], 0⟩

/-- `create_product` handler body (`POST /products`): insert the dumped
product, commit, return the product unchanged. -/
def create_product (product : ProductSchema) (db : List Json) : ProductSchema × Conn :=
  let conn := poolConnection db
  let conn := insert_product conn (Json.obj (dumpProduct product))
  let conn := conn.commit
  (product, conn)

/-- `create_products_bulk` handler body (`POST /products/bulk`): serialize
every product, run one batched insert, commit once, report the count. -/
def create_products_bulk (products : List ProductSchema) (db : List Json) : Json × Conn :=
  let conn := poolConnection db
  let conn := executemany conn (products.map (fun p => Json.obj (dumpProduct p)))
  let conn := conn.commit
  (Json.obj [("inserted", Json.num (products.length : Rat))], conn)

/-- `get_products` (`GET /products`): `SELECT product FROM products_raw`,
rows come back as single-element tuples, `row[0]` unwraps each. -/
def get_products (db : List Json) : List Json :=
  let rows := db.map (fun b => (b, ()))
  rows.map (fun row => row.1)

/-- Full `POST /products` pipeline: the body is validated against
`ProductSchema` before the handler runs; failure short-circuits with 422,
success runs the handler and serializes the result through the response
model with status 201. -/
def postProductsRoute (payload : List (String × Json)) (db : List Json) :
    Response × List Json :=
  match validateProduct payload with
  | none => (⟨422, validationErrorBody, false⟩, db)
  | some p =>
    let (ret, conn) := create_product p db
    (⟨201, Json.obj (dumpProduct ret), true⟩, conn.committed)

/-- The field names declared by `ProductSchema`. -/
def productKeys : List String :=
  ["product_id", "name", "price", "currency", "category", "brand", "tags", "dimensions"]

/-- Absent, null, or a canonically-shaped dimensions object (the three
float fields, in declaration order). -/
def isOptDimsVal : Option Json → Bool
  | none => true
  | some Json.null => true
  | some (Json.obj [(k1, Json.num _), (k2, Json.num _), (k3, Json.num _)]) =>
    k1 == "width_cm" && k2 == "height_cm" && k3 == "depth_cm"
  | _ => false

/-- A valid product payload in the sense of the spec: every key is a
declared product field, all required fields are present with correctly
typed values, optional fields are absent, null, or correctly typed. -/
def wellTypedProductPayload (q : List (String × Json)) : Bool :=
  isStrVal (lookupStr "product_id" q) && isStrVal (lookupStr "name" q) &&
  isNumVal (lookupStr "price" q) && isStrVal (lookupStr "currency" q) &&
  isOptStrVal (lookupStr "category" q) && isOptStrVal (lookupStr "brand" q) &&
  isOptStrListVal (lookupStr "tags" q) && isOptDimsVal (lookupStr "dimensions" q) &&
  q.all (fun kv => decide (kv.1 ∈ productKeys))

end Ex2

/-! ### lektion_2 / lektion_3: the users app -/

namespace L3

/-- `lektion_2_fastapi_pydantic/schema/user.py`: request schema. -/
structure UserSchema where
  username : String
  password : String
  is_enabled : Bool
deriving DecidableEq

/-- `lektion_2_fastapi_pydantic/schema/user.py`: response schema, only
the username. -/
structure UserSchemaResponse where
  username : String
deriving DecidableEq

/-- The seeded module-level `userList` of `lektion_3_fastapi_pydantic`.
The source passes `is_enabled="True"` / `"False"` strings, which pydantic
lax bool validation coerces to the bools recorded here. -/
def userList : List UserSchema :=
  [⟨"Benny", "123", true⟩, ⟨"Frida", "321", true⟩, ⟨"Tommy", "abc", false⟩]

/-- Validation of a request body against `UserSchema`. -/
def validateUser (payload : List (String × Json)) : Option UserSchema := do
  let username ← decStr (lookupStr "username" payload)
  let password ← decStr (lookupStr "password" payload)
  let enabled ← decBool (lookupStr "is_enabled" payload)
  some ⟨username, password, enabled⟩

/-- `UserSchema` serialization (`response_model=UserSchema`). -/
def dumpUser (u : UserSchema) : List (String × Json) :=
  [("username", Json.str u.username), ("password", Json.str u.password),
   ("is_enabled", Json.bool u.is_enabled)]

/-- `post_user` handler body: append to the list, return the same record. -/
def post_user (user : UserSchema) (st : List UserSchema) :
    UserSchema × List UserSchema :=
  (user, st ++ [user])

/-- `get_users` with `response_model=list[UserSchemaResponse]`: the list
is returned with each user filtered down to the response schema's only
field, `username`. -/
def get_users (st : List UserSchema) : List UserSchemaResponse :=
  st.map (fun u => ⟨u.username⟩)

/-- Full `POST /users` pipeline: validate the body against `UserSchema`
before the handler; failure short-circuits with 422 and no state change,
success appends and returns the created record with status 201. -/
def postUsersRoute (payload : List (String × Json)) (st : List UserSchema) :
    Response × List UserSchema :=
  match validateUser payload with
  | none => (⟨422, validationErrorBody, false⟩, st)
  | some u =>
    let (ret, st2) := post_user u st
    (⟨201, Json.obj (dumpUser ret), true⟩, st2)

/-- `root` (`GET /`): the fixed greeting; touches no state. -/
def root (st : List UserSchema) : Response × List UserSchema :=
  (⟨200, Json.obj [("Hello", Json.str "World")], true⟩, st)

/-- `get_item` handler body: echo the decoded id and the color. -/
def get_item (item_id : Int) (color : Option String) : Json :=
  Json.obj [("item_id", Json.num (item_id : Rat)), ("color", encOptStr color)]

/-- `GET /items/{item_id}` pipeline: the raw path segment is decoded to
`int` before the handler runs; a non-integer segment is a 422 and the
handler never runs.  `color` is the raw optional query parameter; when
absent the declared default `None` applies. -/
def getItemRoute (seg : String) (color : Option String) : Response :=
  match parseIntSeg seg with
  | some i => ⟨200, get_item i color, true⟩
  | none => ⟨422, validationErrorBody, false⟩

/-- The field names declared by `UserSchema`. -/
def userKeys : List String := ["username", "password", "is_enabled"]

/-- A valid user payload: every key a declared field, all three required
fields present with correctly typed values. -/
def wellTypedUserPayload (q : List (String × Json)) : Bool :=
  isStrVal (lookupStr "username" q) && isStrVal (lookupStr "password" q) &&
  isBoolVal (lookupStr "is_enabled" q) &&
  q.all (fun kv => decide (kv.1 ∈ userKeys))

/-- A user payload with a missing required field or a wrong-typed field:
some declared field fails its per-field validation. -/
def userPayloadMissingOrWrongTyped (q : List (String × Json)) : Bool :=
  (decStr (lookupStr "username" q)).isNone ||
  (decStr (lookupStr "password" q)).isNone ||
  (decBool (lookupStr "is_enabled" q)).isNone

/-- `N` successful `POST /users` creations applied in order. -/
def applyPosts (posts : List UserSchema) (st : List UserSchema) :
    List UserSchema :=
  posts.foldl (fun s u => (post_user u s).2) st

end L3

/-! ### exercise_1: greeting and external-API product proxy -/

namespace Ex1

/-- `exercise_1/schema/product.py`: nested rating. -/
structure RatingSchema where
  rate : Rat
  count : Int
deriving DecidableEq

/-- `exercise_1/schema/product.py`: the product schema. -/
structure ProductSchema where
  id : Int
  title : String
  price : Rat
  description : String
  category : String
  image : String
  rating : RatingSchema
deriving DecidableEq

/-- Validation of a `RatingSchema` value. -/
def validateRating : Json → Option RatingSchema
  | Json.obj kvs => do
    let rate ← decFloat (lookupStr "rate" kvs)
    let count ← decInt (lookupStr "count" kvs)
    some ⟨rate, count⟩
  | _ => none

/-- Validation of one item of the external API's response against
`ProductSchema` (`ProductSchema(**item)`). -/
def validateProduct : Json → Option ProductSchema
  | Json.obj kvs => do
    let id ← decInt (lookupStr "id" kvs)
    let title ← decStr (lookupStr "title" kvs)
    let price ← decFloat (lookupStr "price" kvs)
    let description ← decStr (lookupStr "description" kvs)
    let category ← decStr (lookupStr "category" kvs)
    let image ← decStr (lookupStr "image" kvs)
    let rating ← (lookupStr "rating" kvs).bind validateRating
    some ⟨id, title, price, description, category, image, rating⟩
  | _ => none

/-- The seeded module-level `productList` of `exercise_1/main.py`. -/
def productList : List ProductSchema :=
  [⟨1, "Laptop", 29999/100, "Powerful laptop for work", "Electronics",
    "https://www.microsoft.com/en-us/surface/devices/surface-laptop",
    ⟨42/10, 85⟩⟩,
   ⟨2, "Mouse", 2999/100, "Ergonomic wireless mouse", "Electronics",
    "https://thetechhacker.com/2016/12/05/what-is-mouse/",
    ⟨45/10, 120⟩⟩]

/-- `hello_world` (`GET /`): the fixed greeting; touches no state. -/
def hello_world (st : List ProductSchema) : Response × List ProductSchema :=
  (⟨200, Json.obj [("message", Json.str "Hello World")], true⟩, st)

/-- Validate every item of the fetched array in order
(the `for item in response_json` loop); any failure aborts with an
unhandled `ValidationError`. -/
def decodeProducts : List Json → Option (List ProductSchema)
  | [] => some []
  | item :: rest => do
    let p ← validateProduct item
    let ps ← decodeProducts rest
    some (p :: ps)

/-- `get_products` (`GET /products`): the external fetch's parsed JSON is
the only input the handler consumes; the module state `productList` is
passed through untouched.  A non-array response or any item failing
validation is an unhandled error (`none`). -/
def get_products (response_json : Json) (st : List ProductSchema) :
    Option (List ProductSchema) × List ProductSchema :=
  (match response_json with
   | Json.arr items => decodeProducts items
   | _ => none, st)

end Ex1

/-! ### Helper lemmas: well-typed values decode, and decoding preserves
the raw value -/

/-- A well-typed string value decodes, and it is the encoding of its
decoding. -/
theorem decStr_total {o : Option Json} (h : isStrVal o = true) :
    ∃ s, decStr o = some s ∧ ∀ v, o = some v → v = Json.str s := by
  match o, h with
  | some (Json.str s), _ => exact ⟨s, rfl, fun v hv => by cases hv; rfl⟩

/-- A well-typed number value decodes, and it is the encoding of its
decoding. -/
theorem decFloat_total {o : Option Json} (h : isNumVal o = true) :
    ∃ r, decFloat o = some r ∧ ∀ v, o = some v → v = Json.num r := by
  match o, h with
  | some (Json.num r), _ => exact ⟨r, rfl, fun v hv => by cases hv; rfl⟩

/-- A well-typed bool value decodes, and it is the encoding of its
decoding. -/
theorem decBool_total {o : Option Json} (h : isBoolVal o = true) :
    ∃ b, decBool o = some b ∧ ∀ v, o = some v → v = Json.bool b := by
  match o, h with
  | some (Json.bool b), _ => exact ⟨b, rfl, fun v hv => by cases hv; rfl⟩

/-- A well-typed optional-string value decodes, and when present it is
the encoding of its decoding. -/
theorem decOptStr_total {o : Option Json} (h : isOptStrVal o = true) :
    ∃ c, decOptStr o = some c ∧ ∀ v, o = some v → v = encOptStr c := by
  match o, h with
  | none, _ => exact ⟨none, rfl, fun v hv => by cases hv⟩
  | some Json.null, _ => exact ⟨none, rfl, fun v hv => by cases hv; rfl⟩
  | some (Json.str s), _ => exact ⟨some s, rfl, fun v hv => by cases hv; rfl⟩

/-- An all-strings array decodes element-wise and is the image of its
decoding under `Json.str`. -/
theorem decStrList_total : ∀ {xs : List Json}, xs.all isStrJson = true →
    ∃ ss, decStrList xs = some ss ∧ xs = ss.map Json.str := by
  intro xs
  induction xs with
  | nil => exact fun _ => ⟨[], rfl, rfl⟩
  | cons x rest ih =>
    intro h
    simp only [List.all_cons, Bool.and_eq_true] at h
    obtain ⟨ss, hdec, heq⟩ := ih h.2
    match x, h.1 with
    | Json.str s, _ =>
      exact ⟨s :: ss, by simp [decStrList, hdec], by simp [heq]⟩

/-- A well-typed optional string-list value decodes, and when present it
is the encoding of its decoding. -/
theorem decOptStrList_total {o : Option Json} (h : isOptStrListVal o = true) :
    ∃ t, decOptStrList o = some t ∧ ∀ v, o = some v → v = encOptStrList t := by
  match o, h with
  | none, _ => exact ⟨none, rfl, fun v hv => by cases hv⟩
  | some Json.null, _ => exact ⟨none, rfl, fun v hv => by cases hv; rfl⟩
  | some (Json.arr xs), h =>
    obtain ⟨ss, hdec, heq⟩ := decStrList_total (by simpa [isOptStrListVal] using h)
    exact ⟨some ss, by simp [decOptStrList, hdec],
      fun v hv => by cases hv; simp [encOptStrList, heq]⟩

/-- A well-typed optional dimensions value decodes, and when present it
is the encoding of its decoding. -/
theorem decOptDims_total {o : Option Json} (h : Ex2.isOptDimsVal o = true) :
    ∃ d, Ex2.decOptDims o = some d ∧ ∀ v, o = some v → v = Ex2.encOptDims d := by
  match o, h with
  | none, _ => exact ⟨none, rfl, fun v hv => by cases hv⟩
  | some Json.null, _ => exact ⟨none, rfl, fun v hv => by cases hv; rfl⟩
  | some (Json.obj [(k1, Json.num w), (k2, Json.num hh), (k3, Json.num d)]), h =>
    simp only [Ex2.isOptDimsVal, Bool.and_eq_true, beq_iff_eq] at h
    obtain ⟨⟨rfl, rfl⟩, rfl⟩ := h
    exact ⟨some ⟨w, hh, d⟩, rfl, fun v hv => by cases hv; rfl⟩

/-- A successful lookup comes from an entry of the object. -/
theorem lookupStr_some_key_mem {k : String} {q : List (String × Json)} {v : Json}
    (h : lookupStr k q = some v) : ∃ w, (k, w) ∈ q := by
  induction q with
  | nil => simp [lookupStr] at h
  | cons kv rest ih =>
    rcases kv with ⟨k', v'⟩
    by_cases hk : k' = k
    · subst hk
      exact ⟨v', List.mem_cons_self _ _⟩
    · simp only [lookupStr, if_neg hk] at h
      obtain ⟨w, hw⟩ := ih h
      exact ⟨w, List.mem_cons_of_mem _ hw⟩

/-! ### Claim theorems -/

/-- C1: For every valid product payload (all required fields present with
correct types), submitting it to a creation endpoint (`POST /products` of
exercise_2 or `POST /users` of lektion_3) yields response status 201 and
a response body in which every field of the input payload reappears
unchanged: validate-then-serialize round-trips the record. -/
theorem C1_creation_roundtrips
    (q : List (String × Json)) (db : List Json)
    (hq : Ex2.wellTypedProductPayload q = true)
    (r : List (String × Json)) (st : List L3.UserSchema)
    (hr : L3.wellTypedUserPayload r = true) :
    (∃ p, Ex2.validateProduct q = some p ∧
      (Ex2.postProductsRoute q db).1.status = 201 ∧
      (Ex2.postProductsRoute q db).1.body = Json.obj (Ex2.dumpProduct p) ∧
      ∀ k v, lookupStr k q = some v → lookupStr k (Ex2.dumpProduct p) = some v) ∧
    (∃ u, L3.validateUser r = some u ∧
      (L3.postUsersRoute r st).1.status = 201 ∧
      (L3.postUsersRoute r st).1.body = Json.obj (L3.dumpUser u) ∧
      ∀ k v, lookupStr k r = some v → lookupStr k (L3.dumpUser u) = some v) := by
  constructor
  · simp only [Ex2.wellTypedProductPayload, Bool.and_eq_true] at hq
    obtain ⟨⟨⟨⟨⟨⟨⟨⟨h1, h2⟩, h3⟩, h4⟩, h5⟩, h6⟩, h7⟩, h8⟩, hall⟩ := hq
    obtain ⟨pid, hpidD, hpidV⟩ := decStr_total h1
    obtain ⟨nm, hnmD, hnmV⟩ := decStr_total h2
    obtain ⟨pr, hprD, hprV⟩ := decFloat_total h3
    obtain ⟨cur, hcurD, hcurV⟩ := decStr_total h4
    obtain ⟨cat, hcatD, hcatV⟩ := decOptStr_total h5
    obtain ⟨br, hbrD, hbrV⟩ := decOptStr_total h6
    obtain ⟨tg, htgD, htgV⟩ := decOptStrList_total h7
    obtain ⟨dm, hdmD, hdmV⟩ := decOptDims_total h8
    have hval : Ex2.validateProduct q = some ⟨pid, nm, pr, cur, cat, br, tg, dm⟩ := by
      simp [Ex2.validateProduct, hpidD, hnmD, hprD, hcurD, hcatD, hbrD, htgD, hdmD]
    refine ⟨⟨pid, nm, pr, cur, cat, br, tg, dm⟩, hval, ?_, ?_, ?_⟩
    · simp [Ex2.postProductsRoute, hval, Ex2.create_product]
    · simp [Ex2.postProductsRoute, hval, Ex2.create_product]
    · intro k v hkv
      obtain ⟨w, hw⟩ := lookupStr_some_key_mem hkv
      have hk := of_decide_eq_true (List.all_eq_true.mp hall _ hw)
      simp only [Ex2.productKeys, List.mem_cons, List.not_mem_nil, or_false] at hk
      rcases hk with rfl | rfl | rfl | rfl | rfl | rfl | rfl | rfl
      · rw [hpidV v hkv]; rfl
      · rw [hnmV v hkv]; rfl
      · rw [hprV v hkv]; rfl
      · rw [hcurV v hkv]; rfl
      · rw [hcatV v hkv]; rfl
      · rw [hbrV v hkv]; rfl
      · rw [htgV v hkv]; rfl
      · rw [hdmV v hkv]; rfl
  · simp only [L3.wellTypedUserPayload, Bool.and_eq_true] at hr
    obtain ⟨⟨⟨g1, g2⟩, g3⟩, gall⟩ := hr
    obtain ⟨un, hunD, hunV⟩ := decStr_total g1
    obtain ⟨pw, hpwD, hpwV⟩ := decStr_total g2
    obtain ⟨en, henD, henV⟩ := decBool_total g3
    have hval : L3.validateUser r = some ⟨un, pw, en⟩ := by
      simp [L3.validateUser, hunD, hpwD, henD]
    refine ⟨⟨un, pw, en⟩, hval, ?_, ?_, ?_⟩
    · simp [L3.postUsersRoute, hval, L3.post_user]
    · simp [L3.postUsersRoute, hval, L3.post_user]
    · intro k v hkv
      obtain ⟨w, hw⟩ := lookupStr_some_key_mem hkv
      have hk := of_decide_eq_true (List.all_eq_true.mp gall _ hw)
      simp only [L3.userKeys, List.mem_cons, List.not_mem_nil, or_false] at hk
      rcases hk with rfl | rfl | rfl
      · rw [hunV v hkv]; rfl
      · rw [hpwV v hkv]; rfl
      · rw [henV v hkv]; rfl

/-- Witness for C1: a concrete valid product payload (with tags and
nested dimensions) and a concrete valid user payload both come back with
status 201. -/
theorem C1_creation_roundtrips_witness :
    (Ex2.postProductsRoute [("product_id", Json.str "p1"), ("name", Json.str "Desk"),
        ("price", Json.num 100), ("currency", Json.str "SEK"),
        ("tags", Json.arr [Json.str "wood"]),
        ("dimensions", Json.obj [("width_cm", Json.num 80), ("height_cm", Json.num 75),
          ("depth_cm", Json.num 40)])] []).1.status = 201 ∧
    (L3.postUsersRoute [("username", Json.str "Ada"), ("password", Json.str "pw"),
        ("is_enabled", Json.bool true)] L3.userList).1.status = 201 := by
  obtain ⟨⟨p, _, hs, _, _⟩, ⟨u, _, hs2, _, _⟩⟩ :=
    C1_creation_roundtrips
      [("product_id", Json.str "p1"), ("name", Json.str "Desk"),
        ("price", Json.num 100), ("currency", Json.str "SEK"),
        ("tags", Json.arr [Json.str "wood"]),
        ("dimensions", Json.obj [("width_cm", Json.num 80), ("height_cm", Json.num 75),
          ("depth_cm", Json.num 40)])] [] rfl
      [("username", Json.str "Ada"), ("password", Json.str "pw"),
        ("is_enabled", Json.bool true)] L3.userList rfl
  exact ⟨hs, hs2⟩

/-- C2: a payload with a missing required field or a wrong-typed field
makes `POST /users` answer with a 4xx status (422), the handler body
never runs, and the in-memory user list is exactly unchanged: validation
failure is atomic. -/
theorem C2_validation_failure_atomic
    (q : List (String × Json)) (st : List L3.UserSchema)
    (h : L3.userPayloadMissingOrWrongTyped q = true) :
    (L3.postUsersRoute q st).1.status = 422 ∧
    400 ≤ (L3.postUsersRoute q st).1.status ∧ (L3.postUsersRoute q st).1.status < 500 ∧
    (L3.postUsersRoute q st).1.handlerRan = false ∧
    (L3.postUsersRoute q st).2 = st := by
  have hval : L3.validateUser q = none := by
    simp only [L3.userPayloadMissingOrWrongTyped, Bool.or_eq_true,
      Option.isNone_iff_eq_none] at h
    rcases h with (h | h) | h <;>
      simp [L3.validateUser, h]
  simp [L3.postUsersRoute, hval]

/-- Witness for C2: the empty payload (all required fields missing) on
the seeded user list. -/
theorem C2_validation_failure_atomic_witness :
    (L3.postUsersRoute [] L3.userList).1.status = 422 ∧
    400 ≤ (L3.postUsersRoute [] L3.userList).1.status ∧
    (L3.postUsersRoute [] L3.userList).1.status < 500 ∧
    (L3.postUsersRoute [] L3.userList).1.handlerRan = false ∧
    (L3.postUsersRoute [] L3.userList).2 = L3.userList := by
  obtain ⟨h1, h2, h3, h4, h5⟩ := C2_validation_failure_atomic [] L3.userList rfl
  exact ⟨h1, h2, h3, h4, h5⟩

/-- Folding `post_user` over a list of creations appends them in order. -/
theorem applyPosts_eq_append : ∀ (posts acc : List L3.UserSchema),
    L3.applyPosts posts acc = acc ++ posts := by
  intro posts
  induction posts with
  | nil => intro acc; simp [L3.applyPosts]
  | cons p rest ih =>
    intro acc
    have hstep : L3.applyPosts (p :: rest) acc = L3.applyPosts rest (acc ++ [p]) := rfl
    rw [hstep, ih (acc ++ [p]), List.append_assoc]
    rfl

/-- Counterexample to C3: with zero successful creations since process
start, GET /users returns 3 records (the seed), not 0. -/
theorem C3_counterexample :
    (L3.get_users (L3.applyPosts [] L3.userList)).length = 3 ∧
    ¬ (L3.get_users (L3.applyPosts [] L3.userList)).length = 0 := by
  constructor <;> decide

/-- C3 amended: after exactly N successful POST /users creations starting
from process start, GET /users returns exactly 3 + N records — the three
seeded users followed by the N created records, in creation order; each
append adds the new record at the end of the list and returns that same
record. -/
theorem C3_get_returns_seed_plus_creations (posts : List L3.UserSchema) :
    (L3.get_users (L3.applyPosts posts L3.userList)).length = 3 + posts.length ∧
    L3.applyPosts posts L3.userList = L3.userList ++ posts ∧
    ∀ u st, L3.post_user u st = (u, st ++ [u]) := by
  refine ⟨?_, applyPosts_eq_append posts L3.userList, fun u st => rfl⟩
  rw [L3.get_users, applyPosts_eq_append posts L3.userList]
  simp [L3.userList]
  omega

/-- Counterexample to C4: a validated product with its optional fields
unset serializes with the optional keys present (mapped to null), not
omitted. -/
theorem C4_counterexample :
    lookupStr "category" (Ex2.dumpProduct ⟨"p1", "Desk", 100, "SEK", none, none, none, none⟩)
      = some Json.null ∧
    lookupStr "category" (Ex2.dumpProduct ⟨"p1", "Desk", 100, "SEK", none, none, none, none⟩)
      ≠ none :=
  ⟨rfl, Option.some_ne_none _⟩

/-- C4 amended: serializing a validated record emits unset optional
fields as explicit nulls — for every product whose optional fields are
unset, the serialized mapping contains each optional key with value
null instead of omitting it. -/
theorem C4_unset_optionals_serialized_as_null (p : Ex2.ProductSchema)
    (hc : p.category = none) (hb : p.brand = none) (ht : p.tags = none)
    (hd : p.dimensions = none) :
    lookupStr "category" (Ex2.dumpProduct p) = some Json.null ∧
    lookupStr "brand" (Ex2.dumpProduct p) = some Json.null ∧
    lookupStr "tags" (Ex2.dumpProduct p) = some Json.null ∧
    lookupStr "dimensions" (Ex2.dumpProduct p) = some Json.null := by
  refine ⟨?_, ?_, ?_, ?_⟩
  · have h : lookupStr "category" (Ex2.dumpProduct p) = some (encOptStr p.category) := rfl
    rw [h, hc]; rfl
  · have h : lookupStr "brand" (Ex2.dumpProduct p) = some (encOptStr p.brand) := rfl
    rw [h, hb]; rfl
  · have h : lookupStr "tags" (Ex2.dumpProduct p) = some (encOptStrList p.tags) := rfl
    rw [h, ht]; rfl
  · have h : lookupStr "dimensions" (Ex2.dumpProduct p) = some (Ex2.encOptDims p.dimensions) := rfl
    rw [h, hd]; rfl

/-- Witness for the amended C4 at a concrete product. -/
theorem C4_unset_optionals_serialized_as_null_witness :
    lookupStr "brand" (Ex2.dumpProduct ⟨"p2", "Chair", 50, "EUR", none, none, none, none⟩)
      = some Json.null := by
  obtain ⟨_, h, _, _⟩ :=
    C4_unset_optionals_serialized_as_null ⟨"p2", "Chair", 50, "EUR", none, none, none, none⟩
      rfl rfl rfl rfl
  exact h

/-- C5: POST /products/bulk with K valid products serializes each one,
appends exactly those K rows to the table in order through a single
batch, commits exactly once, and returns {"inserted": K}. -/
theorem C5_bulk_insert_returns_count (products : List Ex2.ProductSchema) (db : List Json) :
    (Ex2.create_products_bulk products db).1
      = Json.obj [("inserted", Json.num (products.length : Rat))] ∧
    (Ex2.create_products_bulk products db).2.committed
      = db ++ products.map (fun p => Json.obj (Ex2.dumpProduct p)) ∧
    (Ex2.create_products_bulk products db).2.pending = [] ∧
    (Ex2.create_products_bulk products db).2.commits = 1 := by
  refine ⟨rfl, ?_, rfl, rfl⟩
  simp [Ex2.create_products_bulk, Ex2.executemany, Ex2.poolConnection, Ex2.Conn.commit]

/-- C6: GET /products performs one unfiltered scan and returns every
stored blob, one per row, in storage order, with no transformation
beyond unwrapping each row tuple: it is the identity on the stored
column. -/
theorem C6_select_all_identity (db : List Json) : Ex2.get_products db = db := by
  simp [Ex2.get_products, Function.comp_def]

/-- C7: the item_id path segment is decoded to its declared integer type
before the handler runs; a non-integer segment fails with a 4xx (422)
without running the handler; `color` is optional defaulting to None; and
every valid request is answered with {"item_id": id, "color": color}. -/
theorem C7_get_item_path_decoding (seg : String) (color : Option String) :
    (∀ i, parseIntSeg seg = some i →
      L3.getItemRoute seg color =
        ⟨200, Json.obj [("item_id", Json.num (i : Rat)), ("color", encOptStr color)], true⟩) ∧
    (parseIntSeg seg = none →
      (L3.getItemRoute seg color).status = 422 ∧
      400 ≤ (L3.getItemRoute seg color).status ∧
      (L3.getItemRoute seg color).status < 500 ∧
      (L3.getItemRoute seg color).handlerRan = false) ∧
    (∀ i : Int,
      L3.get_item i none = Json.obj [("item_id", Json.num (i : Rat)), ("color", Json.null)]) := by
  refine ⟨?_, ?_, fun i => rfl⟩
  · intro i hi
    simp [L3.getItemRoute, hi, L3.get_item]
  · intro hn
    simp [L3.getItemRoute, hn]

/-- Witness for C7: "249" decodes and is echoed with its color; "abc"
is rejected with 422 before the handler. -/
theorem C7_get_item_path_decoding_witness :
    L3.getItemRoute "249" (some "black")
      = ⟨200, Json.obj [("item_id", Json.num (249 : Rat)), ("color", encOptStr (some "black"))],
          true⟩ ∧
    (L3.getItemRoute "abc" none).status = 422 ∧
    (L3.getItemRoute "abc" none).handlerRan = false := by
  obtain ⟨hok, _, _⟩ := C7_get_item_path_decoding "249" (some "black")
  obtain ⟨_, hbad, _⟩ := C7_get_item_path_decoding "abc" none
  have h1 := hok 249 (by decide)
  have h2 := hbad (by decide)
  exact ⟨h1, h2.1, h2.2.2.2⟩

/-- C8: GET / of both apps always returns its fixed greeting body with
status 200, for every state of the stores, and mutates no state. -/
theorem C8_root_fixed_greeting (st1 : List Ex1.ProductSchema) (st2 : List L3.UserSchema) :
    Ex1.hello_world st1 = (⟨200, Json.obj [("message", Json.str "Hello World")], true⟩, st1) ∧
    L3.root st2 = (⟨200, Json.obj [("Hello", Json.str "World")], true⟩, st2) :=
  ⟨rfl, rfl⟩

/-- C9: GET /users projects every record to its username only, so two
user-list states that agree on usernames (and may differ arbitrarily in
passwords or is_enabled) produce identical responses: passwords do not
flow to this output. -/
theorem C9_get_users_no_password_flow (st st1 st2 : List L3.UserSchema)
    (h : st1.map (fun u => u.username) = st2.map (fun u => u.username)) :
    L3.get_users st = st.map (fun u => ⟨u.username⟩) ∧
    L3.get_users st1 = L3.get_users st2 := by
  refine ⟨rfl, ?_⟩
  have hfact : ∀ l : List L3.UserSchema,
      L3.get_users l
        = (l.map (fun u => u.username)).map (fun n => (⟨n⟩ : L3.UserSchemaResponse)) := by
    intro l
    simp [L3.get_users, List.map_map]
  rw [hfact st1, hfact st2, h]

/-- Witness for C9: two singleton states differing only in password and
is_enabled give the same GET /users response. -/
theorem C9_get_users_no_password_flow_witness :
    L3.get_users [⟨"Ada", "secret1", true⟩] = L3.get_users [⟨"Ada", "secret2", false⟩] := by
  obtain ⟨_, h⟩ :=
    C9_get_users_no_password_flow [] [⟨"Ada", "secret1", true⟩] [⟨"Ada", "secret2", false⟩] rfl
  exact h

/-- C10: exercise_1's seeded module-level productList is dead state: the
GET /products response is built only from the external API's JSON and is
independent of the list's contents, and no endpoint mutates the list. -/
theorem C10_productList_dead_state (fetched : Json)
    (st st1 st2 : List Ex1.ProductSchema) :
    (Ex1.get_products fetched st1).1 = (Ex1.get_products fetched st2).1 ∧
    (Ex1.get_products fetched st).2 = st ∧
    (Ex1.get_products fetched Ex1.productList).2 = Ex1.productList ∧
    (Ex1.hello_world st).2 = st :=
  ⟨rfl, rfl, rfl, rfl⟩
